import Mathlib

/-!
Shallow embedding of the Ollama Chat reverse proxy (`ollama-chat/server.py`)
and proofs about its endpoint resolution, status reporting, CORS decoration
and forwarding-with-retry logic.

Network effects are modelled by explicit oracles: a probe oracle gives, for
each URL, the outcome of `GET <url>/api/tags`; an upstream oracle gives, for
each outbound attempt index, the outcome of `urlopen` on the forwarded
request.  The inbound request stream (`self.rfile`) is modelled as the list
of bytes still readable, consumed by `read`.
-/

namespace OllamaChat

/-- Python `s.startswith(pre)`, on the character sequences of the strings. -/
def strStartsWith (pre s : String) : Bool :=
  pre.toList.isPrefixOf s.toList

/-- Python `s.endswith(post)`, on the character sequences of the strings. -/
def strEndsWith (post s : String) : Bool :=
  post.toList.reverse.isPrefixOf s.toList.reverse

/-- HTTP methods the handler implements (`do_GET`, `do_POST`, `do_OPTIONS`). -/
inductive Method where
  | GET
  | POST
  | OPTIONS
deriving DecidableEq

/-- Outcome of one probe `GET <url>/api/tags` as seen by `test_connection`
(server.py line 52): `none` means the request raised
(`URLError`/`OSError`/`socket.timeout`, which includes every HTTP error
status), `some s` means a response object with HTTP status `s` was returned. -/
abbrev ProbeNet := String → Option Nat

/-- `test_connection` (server.py lines 52-59): issue `GET url/api/tags`,
return whether it answered with status 200; any exception yields `False`. -/
def test_connection (net : ProbeNet) (url : String) : Bool :=
  match net (url ++ "/api/tags") with
  | some s => s == 200
  | none => false

/-- The hard-wired Docker candidate list (server.py lines 32-35). -/
def docker_candidates : List String :=
  ["http://rag-ollama:11434", "http://ollama:11434"]

/-- The localhost fallback URL (server.py line 43). -/
def localhost_url : String := "http://localhost:11434"

/-- The full ordered candidate list the resolver works through:
the Docker candidates, then localhost. -/
def candidates : List String := docker_candidates ++ [localhost_url]

/-- The `for url in docker_candidates` loop of `detect_ollama_url`
(server.py lines 37-40): returns the first candidate whose probe succeeds
(if any) together with the list of URLs actually probed, in order. -/
def probeLoop (net : ProbeNet) : List String → Option String × List String
  | [] => (none, [])
  | u :: rest =>
      if test_connection net u then (some u, [u])
      else
        let (r, t) := probeLoop net rest
        (r, u :: t)

/-- `detect_ollama_url` (server.py lines 23-50).  `env` is the value of the
`OLLAMA_URL` environment variable (empty string when unset).  Returns the
resolved base URL together with the ordered list of URLs probed:
a non-empty override is returned with no probing; otherwise the Docker
candidates are probed in order and the first success wins; otherwise
localhost is probed and returned whether or not it answered. -/
def detect_ollama_url (env : String) (net : ProbeNet) : String × List String :=
  if env ≠ "" then (env, [])
  else
    match probeLoop net docker_candidates with
    | (some u, t) => (u, t)
    | (none, t) =>
        if test_connection net localhost_url then (localhost_url, t ++ [localhost_url])
        else (localhost_url, t ++ [localhost_url])

/-- The connection-status snapshot built by `test_ollama_connection`
(server.py lines 61-81).  Field names follow the source dictionary keys;
`error` is `none` exactly when the key is absent (success case). -/
structure ConnectionStatus where
  connected : Bool
  url : String
  models_count : Nat
  models : List String
  error : Option String
deriving DecidableEq

/-- Outcome of `urlopen(url + "/api/tags")` followed by `json.loads` as seen
by `test_ollama_connection`: either some exception with its message
(network, timeout, HTTP error or parse failure), or the parsed inventory
`data.get('models', [])`, each entry carrying its optional `name` field. -/
inductive TagsResult where
  | exn (msg : String)
  | ok (models : List (Option String))
deriving DecidableEq

/-- `test_ollama_connection` (server.py lines 61-81): on success the snapshot
is connected with the full model count and the names of the first five
entries (`'unknown'` when an entry has no name); on any exception the
snapshot is disconnected with the exception message and empty inventory. -/
def test_ollama_connection (ollama_url : String) : TagsResult → ConnectionStatus
  | .ok ms =>
      { connected := true
        url := ollama_url
        models_count := ms.length
        models := (ms.take 5).map (fun m => m.getD "unknown")
        error := none }
  | .exn msg =>
      { connected := false
        url := ollama_url
        models_count := 0
        models := []
        error := some msg }

/-- A response header line, name and value. -/
abbrev Header := String × String

/-- The three CORS headers added by the overridden `end_headers`
(server.py lines 83-87). -/
def cors_headers : List Header :=
  [("Access-Control-Allow-Origin", "*"),
   ("Access-Control-Allow-Methods", "GET, POST, OPTIONS"),
   ("Access-Control-Allow-Headers", "Content-Type, Authorization")]

/-- The overridden `end_headers` (server.py lines 83-87): every header block,
on every response path, is finalised by appending the CORS headers to
whatever headers were already sent. -/
def end_headers (hs : List Header) : List Header :=
  hs ++ cors_headers

/-- The structured JSON error body (`{'error', 'message', 'suggestion'}`)
built on the failure paths of `proxy_to_ollama`. -/
structure ErrorEnvelope where
  error : String
  message : String
  suggestion : String
deriving DecidableEq

/-- Response bodies the handler can write.  JSON serialisation is kept
abstract: `json.dumps` is injective on the dictionaries involved, so the
constructors distinguish exactly what the wire bodies distinguish. -/
inductive Body where
  | empty
  | raw (bytes : List Nat)
  | statusJson (s : ConnectionStatus)
  | envelopeJson (e : ErrorEnvelope)
  | staticFile (marker : Nat)
deriving DecidableEq

/-- A complete HTTP response: status line, header block, body. -/
structure Response where
  status : Nat
  headers : List Header
  body : Body
deriving DecidableEq

/-- A response whose header block is `Content-Type: application/json`
followed by `end_headers`, as written by every JSON path of
`proxy_to_ollama` (`send_response`, `send_header`, `end_headers`, write). -/
def jsonResponse (status : Nat) (body : Body) : Response :=
  { status := status
    headers := end_headers [("Content-Type", "application/json")]
    body := body }

/-- `_get_error_suggestion` (server.py lines 204-211): the suggestion table
keyed by status code, with the generic fallback for unmapped codes. -/
def get_error_suggestion (status_code : Nat) : String :=
  if status_code = 404 then
    "Try selecting a different model or pull the model using: docker-compose exec ollama ollama pull <model-name>"
  else if status_code = 500 then
    "The model might be loading. Please wait a moment and try again."
  else if status_code = 503 then
    "Ollama service might be starting up. Please wait a moment and try again."
  else
    "Please check the Ollama service status and try again."

/-- The envelope built in the `HTTPError` handler (server.py lines 159-167):
404 is remapped to a model-not-found message, specialised further for paths
ending in `/chat`; `msg` is Python `str(e)`. -/
def httpErrorEnvelope (path : String) (code : Nat) (msg : String) : ErrorEnvelope :=
  let error_msg := if code = 404 then "Model not found" else "Ollama HTTP " ++ toString code
  let error_msg :=
    if code = 404 ∧ strEndsWith "/chat" path then
      "Model not found. Please ensure the selected model is available in Ollama."
    else error_msg
  { error := error_msg
    message := msg
    suggestion := get_error_suggestion code }

/-- The retry cap `max_retries` (server.py line 118). -/
def max_retries : Nat := 3

/-- The envelope built after the final connection failure
(server.py lines 183-187); `msg` is Python `str(e)`. -/
def connFailEnvelope (msg : String) : ErrorEnvelope :=
  { error := "Service Unavailable"
    message := "Cannot connect to Ollama after " ++ toString max_retries ++ " attempts: " ++ msg
    suggestion := "Please ensure Ollama is running and accessible. Check Docker containers if using the BYO RAG system." }

/-- Outcome of one `urlopen(req, timeout=timeout)` on the forwarded request
(server.py line 142): a non-error response (its status and body bytes), an
`HTTPError` (upstream answered with an error status; its code, `str(e)` and
the error body, which the handler never reads), or a connection-level
failure (`URLError`/`socket.timeout`, carrying `str(e)`). -/
inductive AttemptResult where
  | ok (status : Nat) (bytes : List Nat)
  | httpError (code : Nat) (msg : String) (bytes : List Nat)
  | connError (msg : String)
deriving DecidableEq

/-- Oracle giving the outcome of the `i`-th outbound attempt of one request. -/
abbrev Upstream := Nat → AttemptResult

/-- One outbound request as built inside the loop (server.py lines 123-138):
target URL, the body bytes passed to `Request` (`None` when the declared
`Content-Length` is zero), whether `Content-Type: application/json` was
added (POST only), and the selected timeout. -/
structure OutboundAttempt where
  url : String
  body : Option (List Nat)
  contentTypeJson : Bool
  timeout : Nat
deriving DecidableEq

/-- The per-attempt timeout (server.py line 138): 60 for paths ending in
`/chat`, 10 otherwise. -/
def chatTimeout (path : String) : Nat :=
  if strEndsWith "/chat" path then 60 else 10

/-- The result of running `proxy_to_ollama` on one request: the outbound
attempts issued in order, the `time.sleep` durations in order, and the
response written to the client. -/
structure ProxyRun where
  attempts : List OutboundAttempt
  sleeps : List Nat
  response : Response
deriving DecidableEq

/-- The retry loop of `proxy_to_ollama` (server.py lines 121-189), fuel-indexed:
`fuel` is the number of loop iterations still available and `attempt` the
current value of Python's loop variable (the loop is entered with
`fuel = max_retries`, `attempt = 0`, and recursion keeps
`fuel + attempt = max_retries`, so the `fuel = 0` sentinel is never reached).
Each iteration re-reads the request body from the remaining input stream,
builds the outbound request, and dispatches on the upstream outcome:
success answers 200 with the upstream bytes; `HTTPError` answers with the
translated envelope on the last attempt and otherwise falls through to the
next iteration with no sleep; connection failure sleeps `retry_delay` and
doubles it before retrying, or answers 503 on the last attempt. -/
def proxyLoop (ollama_url path : String) (method : Method) (contentLength : Nat)
    (up : Upstream) :
    Nat → Nat → Nat → List Nat → ProxyRun
  | 0, _, _, _ =>
      { attempts := [], sleeps := [], response := { status := 0, headers := [], body := .empty } }
  | fuel + 1, attempt, retry_delay, stream =>
      let request_body := if contentLength > 0 then some (stream.take contentLength) else none
      let att : OutboundAttempt :=
        { url := ollama_url ++ path
          body := request_body
          contentTypeJson := method = Method.POST
          timeout := chatTimeout path }
      let stream2 := stream.drop contentLength
      match up attempt with
      | .ok _ bytes =>
          { attempts := [att], sleeps := [],
            response := jsonResponse 200 (.raw bytes) }
      | .httpError code msg _ =>
          if attempt = max_retries - 1 then
            { attempts := [att], sleeps := [],
              response := jsonResponse code (.envelopeJson (httpErrorEnvelope path code msg)) }
          else
            let r := proxyLoop ollama_url path method contentLength up fuel (attempt + 1) retry_delay stream2
            { attempts := att :: r.attempts, sleeps := r.sleeps, response := r.response }
      | .connError msg =>
          if attempt < max_retries - 1 then
            let r := proxyLoop ollama_url path method contentLength up fuel (attempt + 1) (retry_delay * 2) stream2
            { attempts := att :: r.attempts, sleeps := retry_delay :: r.sleeps, response := r.response }
          else
            { attempts := [att], sleeps := [],
              response := jsonResponse 503 (.envelopeJson (connFailEnvelope msg)) }

/-- `proxy_to_ollama` (server.py lines 107-202): the exact path
`/api/status` is intercepted and answered locally from
`test_ollama_connection`; every other path enters the retry loop with
`attempt = 0` and `retry_delay = 1`.  `statusNet` is the `/api/tags`
outcome the status branch would observe. -/
def proxy_to_ollama (ollama_url path : String) (method : Method) (contentLength : Nat)
    (stream : List Nat) (statusNet : TagsResult) (up : Upstream) : ProxyRun :=
  if path = "/api/status" then
    { attempts := [], sleeps := [],
      response := jsonResponse 200 (.statusJson (test_ollama_connection ollama_url statusNet)) }
  else
    proxyLoop ollama_url path method contentLength up max_retries 0 1 stream

/-- The header block and body the out-of-scope static file responder would
produce for a non-`/api/` path, before CORS decoration. -/
structure StaticResult where
  status : Nat
  headers : List Header
  marker : Nat

/-- Top-level dispatch of the handler (`do_OPTIONS`, `do_GET`, `do_POST`,
server.py lines 89-105): OPTIONS answers 200 with no body; GET and POST
route paths starting with `/api/` to `proxy_to_ollama` and everything else
to the static responder, whose header block is also finalised through the
overridden `end_headers`. -/
def handle (ollama_url : String) (method : Method) (path : String) (contentLength : Nat)
    (stream : List Nat) (statusNet : TagsResult) (up : Upstream)
    (static : StaticResult) : ProxyRun :=
  match method with
  | .OPTIONS =>
      { attempts := [], sleeps := [],
        response := { status := 200, headers := end_headers [], body := .empty } }
  | .GET | .POST =>
      if strStartsWith "/api/" path then
        proxy_to_ollama ollama_url path method contentLength stream statusNet up
      else
        { attempts := [], sleeps := [],
          response := { status := static.status
                        headers := end_headers static.headers
                        body := .staticFile static.marker } }

/-- The URL a given inbound connection forwards to.  Per the source,
`CORSHTTPRequestHandler.__init__` (server.py line 19) runs
`detect_ollama_url` anew for every accepted connection, before the base
class starts handling the connection; the probe oracle is indexed by the
connection number because the network can answer differently at different
times. -/
def handlerUrlForConnection (env : String) (net : Nat → ProbeNet) (conn : Nat) : String :=
  (detect_ollama_url env (net conn)).1

/-- How many times `detect_ollama_url` runs in one process that accepts `n`
connections: once in `main` through its `TempHandler` (server.py lines
224-233) and once per accepted connection in
`CORSHTTPRequestHandler.__init__` (server.py line 19). -/
def resolveCountPerProcess (n : Nat) : Nat :=
  1 + n

end OllamaChat

namespace OllamaChat

/-- Claim C3: when every outbound attempt of a proxied request fails at the
connection level, the proxy makes exactly `max_retries = 3` attempts,
sleeping 1s after the first failure and 2s after the second (the base delay
of 1 doubling each retry), and then answers 503 with an ErrorEnvelope whose
message names the attempt count; no attempt follows the cap. -/
theorem claim_C3_conn_fail (url path msg : String) (m : Method) (cl : Nat)
    (stream : List Nat) (sn : TagsResult) (up : Upstream)
    (hpath : path ≠ "/api/status")
    (hup : ∀ i, up i = AttemptResult.connError msg) :
    (proxy_to_ollama url path m cl stream sn up).attempts.length = 3 ∧
    (proxy_to_ollama url path m cl stream sn up).sleeps = [1, 2] ∧
    (proxy_to_ollama url path m cl stream sn up).response =
      jsonResponse 503 (Body.envelopeJson (connFailEnvelope msg)) ∧
    (connFailEnvelope msg).message = "Cannot connect to Ollama after 3 attempts: " ++ msg := by
  refine ⟨?_, ?_, ?_, rfl⟩ <;>
    simp [proxy_to_ollama, hpath, proxyLoop, hup, max_retries]

/-- Witness for claim C3 at a concrete request whose every attempt is
refused: three attempts, sleeps of 1 and 2 seconds, then the 503 envelope. -/
theorem claim_C3_conn_fail_witness :
    (proxy_to_ollama "http://localhost:11434" "/api/tags" Method.GET 0 []
        (TagsResult.ok []) (fun _ => AttemptResult.connError "refused")).attempts.length = 3 ∧
    (proxy_to_ollama "http://localhost:11434" "/api/tags" Method.GET 0 []
        (TagsResult.ok []) (fun _ => AttemptResult.connError "refused")).sleeps = [1, 2] ∧
    (proxy_to_ollama "http://localhost:11434" "/api/tags" Method.GET 0 []
        (TagsResult.ok []) (fun _ => AttemptResult.connError "refused")).response =
      jsonResponse 503 (Body.envelopeJson (connFailEnvelope "refused")) ∧
    (connFailEnvelope "refused").message = "Cannot connect to Ollama after 3 attempts: " ++ "refused" :=
  claim_C3_conn_fail "http://localhost:11434" "/api/tags" "refused" Method.GET 0 []
    (TagsResult.ok []) (fun _ => AttemptResult.connError "refused")
    (by decide) (fun _ => rfl)

/-- Claim C1 is false as stated: with upstream answering 404 on every
attempt for a path ending in `/chat`, the proxy performs three outbound
attempts, not one — the `HTTPError` handler only responds on the last
attempt and otherwise lets the loop continue. -/
theorem claim_C1_counterexample :
    (proxy_to_ollama "http://localhost:11434" "/api/chat" Method.POST 0 []
        (TagsResult.ok [])
        (fun _ => AttemptResult.httpError 404 "HTTP Error 404: Not Found" [])).attempts.length = 3 ∧
    (proxy_to_ollama "http://localhost:11434" "/api/chat" Method.POST 0 []
        (TagsResult.ok [])
        (fun _ => AttemptResult.httpError 404 "HTTP Error 404: Not Found" [])).attempts.length ≠ 1 := by
  decide

/-- Claim C1 (amended): an upstream non-2xx HTTP status is retried with no
backoff sleep, and translated into an ErrorEnvelope only on the last of the
three attempts, sent with the upstream status code; when the code is 404 and
the path ends in `/chat`, the envelope carries the model-not-found message
and the suggestion to pull the model. -/
theorem claim_C1_amended (url path msg : String) (m : Method) (cl : Nat)
    (stream : List Nat) (sn : TagsResult) (up : Upstream) (code : Nat) (ebody : List Nat)
    (hpath : path ≠ "/api/status")
    (hup : ∀ i, up i = AttemptResult.httpError code msg ebody) :
    (proxy_to_ollama url path m cl stream sn up).attempts.length = 3 ∧
    (proxy_to_ollama url path m cl stream sn up).sleeps = [] ∧
    (proxy_to_ollama url path m cl stream sn up).response =
      jsonResponse code (Body.envelopeJson (httpErrorEnvelope path code msg)) ∧
    (code = 404 → strEndsWith "/chat" path = true →
      httpErrorEnvelope path code msg =
        { error := "Model not found. Please ensure the selected model is available in Ollama."
          message := msg
          suggestion := "Try selecting a different model or pull the model using: docker-compose exec ollama ollama pull <model-name>" }) := by
  refine ⟨?_, ?_, ?_, ?_⟩
  · simp [proxy_to_ollama, hpath, proxyLoop, hup, max_retries]
  · simp [proxy_to_ollama, hpath, proxyLoop, hup, max_retries]
  · simp [proxy_to_ollama, hpath, proxyLoop, hup, max_retries]
  · intro h1 h2
    simp [httpErrorEnvelope, h1, h2, get_error_suggestion]

/-- Witness for the amended claim C1 at a concrete `/api/chat` request with
upstream persistently answering 404. -/
theorem claim_C1_amended_witness :
    (proxy_to_ollama "http://localhost:11434" "/api/chat" Method.POST 0 []
        (TagsResult.ok [])
        (fun _ => AttemptResult.httpError 404 "HTTP Error 404: Not Found" [])).attempts.length = 3 ∧
    (proxy_to_ollama "http://localhost:11434" "/api/chat" Method.POST 0 []
        (TagsResult.ok [])
        (fun _ => AttemptResult.httpError 404 "HTTP Error 404: Not Found" [])).sleeps = [] ∧
    (proxy_to_ollama "http://localhost:11434" "/api/chat" Method.POST 0 []
        (TagsResult.ok [])
        (fun _ => AttemptResult.httpError 404 "HTTP Error 404: Not Found" [])).response =
      jsonResponse 404 (Body.envelopeJson (httpErrorEnvelope "/api/chat" 404 "HTTP Error 404: Not Found")) ∧
    httpErrorEnvelope "/api/chat" 404 "HTTP Error 404: Not Found" =
      { error := "Model not found. Please ensure the selected model is available in Ollama."
        message := "HTTP Error 404: Not Found"
        suggestion := "Try selecting a different model or pull the model using: docker-compose exec ollama ollama pull <model-name>" } := by
  have h := claim_C1_amended "http://localhost:11434" "/api/chat" "HTTP Error 404: Not Found"
    Method.POST 0 [] (TagsResult.ok [])
    (fun _ => AttemptResult.httpError 404 "HTTP Error 404: Not Found" []) 404 []
    (by decide) (fun _ => rfl)
  exact ⟨h.1, h.2.1, h.2.2.1, h.2.2.2 rfl (by decide)⟩

/-- Claim C2 is false as stated: a 201 upstream response is answered with
status 200, not 201; and an upstream 500 is not final — three attempts are
made and the body written is an envelope, not the upstream error body. -/
theorem claim_C2_counterexample :
    (proxy_to_ollama "http://localhost:11434" "/api/tags" Method.GET 0 []
        (TagsResult.ok []) (fun _ => AttemptResult.ok 201 [7])).response.status = 200 ∧
    (proxy_to_ollama "http://localhost:11434" "/api/generate" Method.POST 0 []
        (TagsResult.ok [])
        (fun _ => AttemptResult.httpError 500 "HTTP Error 500: Internal Server Error" [9])).attempts.length = 3 ∧
    (proxy_to_ollama "http://localhost:11434" "/api/generate" Method.POST 0 []
        (TagsResult.ok [])
        (fun _ => AttemptResult.httpError 500 "HTTP Error 500: Internal Server Error" [9])).response.body ≠
      Body.raw [9] := by
  decide

/-- Claim C2 (amended): a non-error upstream response on the first attempt
ends the loop at one attempt with the upstream body forwarded verbatim but
with status hard-coded to 200; an upstream HTTP error status is retried,
and after three attempts the proxy answers with the upstream status code
and a translated ErrorEnvelope in place of the upstream body. -/
theorem claim_C2_amended (url path : String) (m : Method) (cl : Nat)
    (stream : List Nat) (sn : TagsResult) (up : Upstream)
    (hpath : path ≠ "/api/status") :
    (∀ s bytes, up 0 = AttemptResult.ok s bytes →
      (proxy_to_ollama url path m cl stream sn up).attempts.length = 1 ∧
      (proxy_to_ollama url path m cl stream sn up).sleeps = [] ∧
      (proxy_to_ollama url path m cl stream sn up).response = jsonResponse 200 (Body.raw bytes)) ∧
    (∀ code emsg ebody, (∀ i, up i = AttemptResult.httpError code emsg ebody) →
      (proxy_to_ollama url path m cl stream sn up).attempts.length = 3 ∧
      (proxy_to_ollama url path m cl stream sn up).response =
        jsonResponse code (Body.envelopeJson (httpErrorEnvelope path code emsg))) := by
  constructor
  · intro s bytes h0
    refine ⟨?_, ?_, ?_⟩ <;> simp [proxy_to_ollama, hpath, proxyLoop, h0, max_retries]
  · intro code emsg ebody hup
    constructor <;> simp [proxy_to_ollama, hpath, proxyLoop, hup, max_retries]

/-- Witness for the amended claim C2: a first-attempt upstream 201 with body
bytes `[7]` yields one attempt and a 200 response carrying those bytes. -/
theorem claim_C2_amended_witness :
    (proxy_to_ollama "http://localhost:11434" "/api/tags" Method.GET 0 []
        (TagsResult.ok []) (fun _ => AttemptResult.ok 201 [7])).attempts.length = 1 ∧
    (proxy_to_ollama "http://localhost:11434" "/api/tags" Method.GET 0 []
        (TagsResult.ok []) (fun _ => AttemptResult.ok 201 [7])).sleeps = [] ∧
    (proxy_to_ollama "http://localhost:11434" "/api/tags" Method.GET 0 []
        (TagsResult.ok []) (fun _ => AttemptResult.ok 201 [7])).response =
      jsonResponse 200 (Body.raw [7]) :=
  (claim_C2_amended "http://localhost:11434" "/api/tags" Method.GET 0 []
      (TagsResult.ok []) (fun _ => AttemptResult.ok 201 [7]) (by decide)).1 201 [7] rfl

/-- Claim C4 names a real defect: the request body is read from the input
stream inside the retry loop, not before it, so the attempts of one request
are not built from identical parameters.  At a POST with `Content-Length` 4
and body bytes `[1, 2, 3, 4]` whose first attempt fails at the connection
level, the first outbound attempt carries the body and the retry carries an
empty body, the stream having already been consumed. -/
theorem claim_C4_bug :
    (proxy_to_ollama "http://localhost:11434" "/api/chat" Method.POST 4 [1, 2, 3, 4]
        (TagsResult.ok [])
        (fun i => if i = 0 then AttemptResult.connError "refused"
                  else AttemptResult.ok 200 [5])).attempts.map OutboundAttempt.body
      = [some [1, 2, 3, 4], some []] ∧
    (some [1, 2, 3, 4] : Option (List Nat)) ≠ some [] := by
  decide

/-- Claim C5 is false as stated: the backend URL is not selected once per
process lifetime.  `CORSHTTPRequestHandler.__init__` resolves it anew on
every accepted connection, so two connections seeing different network
conditions resolve different URLs, and a process serving one connection
runs the resolver twice (startup diagnostics plus the handler). -/
theorem claim_C5_counterexample :
    handlerUrlForConnection ""
        (fun conn u => if conn = 0 ∧ u = "http://rag-ollama:11434/api/tags" then some 200 else none) 0
      ≠ handlerUrlForConnection ""
        (fun conn u => if conn = 0 ∧ u = "http://rag-ollama:11434/api/tags" then some 200 else none) 1 ∧
    resolveCountPerProcess 1 ≠ 1 := by
  decide

/-- Claim C5 (amended): the resolver runs once at startup plus once per
accepted connection (`n + 1` times for `n` connections); within one
connection the stored URL is fixed at `__init__` and never mutated, so two
connections that observe identical probe outcomes resolve the same URL, but
there is no single process-wide resolved endpoint. -/
theorem claim_C5_amended (env : String) (net : Nat → ProbeNet) (c c' n : Nat)
    (hnet : ∀ u, net c u = net c' u) :
    handlerUrlForConnection env net c = handlerUrlForConnection env net c' ∧
    resolveCountPerProcess n = n + 1 := by
  constructor
  · have h : net c = net c' := funext hnet
    unfold handlerUrlForConnection
    rw [h]
  · simp [resolveCountPerProcess, Nat.add_comm]

/-- Witness for the amended claim C5 at two concrete connections observing
the same (silent) network. -/
theorem claim_C5_amended_witness :
    handlerUrlForConnection "" (fun _ _ => none) 0 = handlerUrlForConnection "" (fun _ _ => none) 1 ∧
    resolveCountPerProcess 2 = 2 + 1 :=
  claim_C5_amended "" (fun _ _ => none) 0 1 2 (fun _ => rfl)

/-- Claim C6: a non-empty override URL is returned with no probe issued;
otherwise the candidates (the two Docker URLs, then localhost) are probed in
order via `GET <candidate>/api/tags`, the first success is returned and
nothing after it is probed, and when no candidate answers the last
candidate (localhost) is returned after all three were probed. -/
theorem claim_C6_resolve (env : String) (net : ProbeNet) :
    (env ≠ "" → detect_ollama_url env net = (env, [])) ∧
    (detect_ollama_url "" net).1 =
      ((candidates.find? (test_connection net)).getD localhost_url) ∧
    (detect_ollama_url "" net).2 =
      candidates.takeWhile (fun u => !test_connection net u) ++
        (candidates.dropWhile (fun u => !test_connection net u)).take 1 := by
  refine ⟨fun h => by simp [detect_ollama_url, h], ?_, ?_⟩ <;>
    cases h1 : test_connection net "http://rag-ollama:11434" <;>
    cases h2 : test_connection net "http://ollama:11434" <;>
    cases h3 : test_connection net "http://localhost:11434" <;>
    simp [detect_ollama_url, probeLoop, candidates, docker_candidates, localhost_url, h1, h2, h3]

/-- Witness for claim C6: a concrete override is returned unchanged with an
empty probe trace. -/
theorem claim_C6_resolve_witness :
    detect_ollama_url "http://x:1" (fun _ => none) = ("http://x:1", []) :=
  (claim_C6_resolve "http://x:1" (fun _ => none)).1 (by decide)

/-- Claim C7: a GET or POST to `/api/status` is answered locally (no
outbound forwarding attempt) with HTTP 200 and the connection snapshot:
on a successful probe the snapshot is connected, reports the full model
count and the first five names in backend order; on any probe failure it is
disconnected with the failure message, zero count and no names — the HTTP
status stays 200 either way. -/
theorem claim_C7_status (url : String) (m : Method) (cl : Nat) (stream : List Nat)
    (sn : TagsResult) (up : Upstream) (static : StaticResult)
    (hm : m = Method.GET ∨ m = Method.POST) :
    (handle url m "/api/status" cl stream sn up static).attempts = [] ∧
    (handle url m "/api/status" cl stream sn up static).response.status = 200 ∧
    (handle url m "/api/status" cl stream sn up static).response.body =
      Body.statusJson (test_ollama_connection url sn) ∧
    (test_ollama_connection url sn).url = url ∧
    (∀ ms, sn = TagsResult.ok ms →
      (test_ollama_connection url sn).connected = true ∧
      (test_ollama_connection url sn).models_count = ms.length ∧
      (test_ollama_connection url sn).models = (ms.take 5).map (fun o => o.getD "unknown") ∧
      (test_ollama_connection url sn).error = none) ∧
    (∀ e, sn = TagsResult.exn e →
      (test_ollama_connection url sn).connected = false ∧
      (test_ollama_connection url sn).error = some e ∧
      (test_ollama_connection url sn).models_count = 0 ∧
      (test_ollama_connection url sn).models = []) := by
  have hpre : strStartsWith "/api/" "/api/status" = true := by decide
  have hurl : (test_ollama_connection url sn).url = url := by
    cases sn <;> simp [test_ollama_connection]
  rcases hm with h | h <;> subst h <;>
    refine ⟨by simp [handle, hpre, proxy_to_ollama, jsonResponse],
            by simp [handle, hpre, proxy_to_ollama, jsonResponse],
            by simp [handle, hpre, proxy_to_ollama, jsonResponse],
            hurl, ?_, ?_⟩ <;>
      rintro x rfl <;> simp [test_ollama_connection]

/-- Witness for claim C7 at a concrete GET with a two-model inventory whose
second entry has no name. -/
theorem claim_C7_status_witness :
    (handle "http://localhost:11434" Method.GET "/api/status" 0 []
        (TagsResult.ok [some "llama3", none]) (fun _ => AttemptResult.connError "x")
        { status := 200, headers := [], marker := 0 }).attempts = [] ∧
    (handle "http://localhost:11434" Method.GET "/api/status" 0 []
        (TagsResult.ok [some "llama3", none]) (fun _ => AttemptResult.connError "x")
        { status := 200, headers := [], marker := 0 }).response.status = 200 ∧
    (test_ollama_connection "http://localhost:11434" (TagsResult.ok [some "llama3", none])).connected = true ∧
    (test_ollama_connection "http://localhost:11434" (TagsResult.ok [some "llama3", none])).models_count = 2 ∧
    (test_ollama_connection "http://localhost:11434" (TagsResult.ok [some "llama3", none])).models =
      ["llama3", "unknown"] := by
  have h := claim_C7_status "http://localhost:11434" Method.GET 0 []
    (TagsResult.ok [some "llama3", none]) (fun _ => AttemptResult.connError "x")
    { status := 200, headers := [], marker := 0 } (Or.inl rfl)
  have hok := h.2.2.2.2.1 [some "llama3", none] rfl
  exact ⟨h.1, h.2.1, hok.1, hok.2.1, hok.2.2.1.trans (by decide)⟩

/-- Every response produced by the retry loop carries the CORS origin
header: the loop is entered with `attempt + fuel = max_retries` and a
positive fuel, and every exit goes through `end_headers`. -/
theorem proxyLoop_cors (url path : String) (m : Method) (cl : Nat) (up : Upstream)
    (fuel attempt delay : Nat) (stream : List Nat)
    (hfa : attempt + fuel = max_retries) (hpos : 0 < fuel) :
    ("Access-Control-Allow-Origin", "*") ∈
      (proxyLoop url path m cl up fuel attempt delay stream).response.headers := by
  induction fuel generalizing attempt delay stream with
  | zero => omega
  | succ fuel ih =>
      rw [proxyLoop]
      cases h0 : up attempt with
      | ok s bytes => simp [jsonResponse, end_headers, cors_headers]
      | httpError code emsg ebody =>
          by_cases ha : attempt = max_retries - 1
          · simp [ha, jsonResponse, end_headers, cors_headers]
          · have h1 : attempt + 1 + fuel = max_retries := by
              simp [max_retries] at hfa ha ⊢
              omega
            have h2 : 0 < fuel := by
              simp [max_retries] at hfa ha ⊢
              omega
            simpa [ha] using ih (attempt + 1) delay (stream.drop cl) h1 h2
      | connError emsg =>
          by_cases ha : attempt < max_retries - 1
          · have h1 : attempt + 1 + fuel = max_retries := by
              simp [max_retries] at hfa ha ⊢
              omega
            have h2 : 0 < fuel := by
              simp [max_retries] at hfa ha ⊢
              omega
            simpa [ha] using ih (attempt + 1) (delay * 2) (stream.drop cl) h1 h2
          · simp [ha, jsonResponse, end_headers, cors_headers]

/-- Claim C8: every response the handler emits — preflight, status, proxied
success, every proxied error path, and the static fallback — carries
`Access-Control-Allow-Origin`, and an OPTIONS request is answered 200 with
an empty body and the CORS headers. -/
theorem claim_C8_cors (url : String) (m : Method) (path : String) (cl : Nat)
    (stream : List Nat) (sn : TagsResult) (up : Upstream) (static : StaticResult) :
    ("Access-Control-Allow-Origin", "*") ∈ (handle url m path cl stream sn up static).response.headers ∧
    (m = Method.OPTIONS →
      (handle url m path cl stream sn up static).response =
        { status := 200, headers := end_headers [], body := Body.empty } ∧
      ("Access-Control-Allow-Origin", "*") ∈ end_headers []) := by
  constructor
  · cases m with
    | OPTIONS => simp [handle, end_headers, cors_headers]
    | GET =>
        by_cases hs : strStartsWith "/api/" path = true
        · by_cases hp : path = "/api/status"
          · subst hp
            simp [handle, hs, proxy_to_ollama, jsonResponse, end_headers, cors_headers]
          · have := proxyLoop_cors url path Method.GET cl up max_retries 0 1 stream (by simp) (by decide)
            simpa [handle, hs, proxy_to_ollama, hp] using this
        · simp at hs
          simp [handle, hs, end_headers, cors_headers]
    | POST =>
        by_cases hs : strStartsWith "/api/" path = true
        · by_cases hp : path = "/api/status"
          · subst hp
            simp [handle, hs, proxy_to_ollama, jsonResponse, end_headers, cors_headers]
          · have := proxyLoop_cors url path Method.POST cl up max_retries 0 1 stream (by simp) (by decide)
            simpa [handle, hs, proxy_to_ollama, hp] using this
        · simp at hs
          simp [handle, hs, end_headers, cors_headers]
  · intro h
    subst h
    exact ⟨rfl, by simp [end_headers, cors_headers]⟩

/-- Witness for claim C8 at a concrete OPTIONS request: status 200, empty
body, CORS headers present. -/
theorem claim_C8_cors_witness :
    (handle "http://localhost:11434" Method.OPTIONS "/api/chat" 0 []
        (TagsResult.ok []) (fun _ => AttemptResult.connError "x")
        { status := 200, headers := [], marker := 0 }).response =
      { status := 200, headers := end_headers [], body := Body.empty } ∧
    ("Access-Control-Allow-Origin", "*") ∈ end_headers [] :=
  (claim_C8_cors "http://localhost:11434" Method.OPTIONS "/api/chat" 0 []
      (TagsResult.ok []) (fun _ => AttemptResult.connError "x")
      { status := 200, headers := [], marker := 0 }).2 rfl

/-- Claim C9: the status sub-route is matched by exact string equality —
the path `/api/status` alone is answered locally with the snapshot and no
outbound attempt, while any other path (including `/api/status?x=1` and
`/api/status/`) enters the forwarding loop and issues at least one outbound
attempt. -/
theorem claim_C9_exact_match (url p : String) (m : Method) (cl : Nat) (stream : List Nat)
    (sn : TagsResult) (up : Upstream) :
    (p = "/api/status" →
      proxy_to_ollama url p m cl stream sn up =
        { attempts := [], sleeps := [],
          response := jsonResponse 200 (Body.statusJson (test_ollama_connection url sn)) }) ∧
    (p ≠ "/api/status" →
      (proxy_to_ollama url p m cl stream sn up).attempts ≠ []) := by
  constructor
  · intro h
    simp [proxy_to_ollama, h]
  · intro h
    cases h0 : up 0 <;>
      simp [proxy_to_ollama, h, proxyLoop, h0, max_retries]

/-- Witness for claim C9: the query-string and trailing-slash variants are
forwarded upstream while the exact path is intercepted. -/
theorem claim_C9_exact_match_witness :
    (proxy_to_ollama "http://localhost:11434" "/api/status?x=1" Method.GET 0 []
        (TagsResult.ok []) (fun _ => AttemptResult.connError "refused")).attempts ≠ [] ∧
    (proxy_to_ollama "http://localhost:11434" "/api/status/" Method.GET 0 []
        (TagsResult.ok []) (fun _ => AttemptResult.connError "refused")).attempts ≠ [] ∧
    proxy_to_ollama "http://localhost:11434" "/api/status" Method.GET 0 []
        (TagsResult.ok []) (fun _ => AttemptResult.connError "refused") =
      { attempts := [], sleeps := [],
        response := jsonResponse 200
          (Body.statusJson (test_ollama_connection "http://localhost:11434" (TagsResult.ok []))) } :=
  ⟨(claim_C9_exact_match "http://localhost:11434" "/api/status?x=1" Method.GET 0 []
      (TagsResult.ok []) (fun _ => AttemptResult.connError "refused")).2 (by decide),
   (claim_C9_exact_match "http://localhost:11434" "/api/status/" Method.GET 0 []
      (TagsResult.ok []) (fun _ => AttemptResult.connError "refused")).2 (by decide),
   (claim_C9_exact_match "http://localhost:11434" "/api/status" Method.GET 0 []
      (TagsResult.ok []) (fun _ => AttemptResult.connError "refused")).1 rfl⟩

/-- Claim C10: in the status snapshot the models list always has
`min(models_count, 5)` elements, and an inventory entry among the first
five that lacks a name contributes the literal string `unknown` at its
position rather than being dropped. -/
theorem claim_C10_unknown_names (url : String) (ms : List (Option String)) :
    (test_ollama_connection url (TagsResult.ok ms)).models.length =
      min (test_ollama_connection url (TagsResult.ok ms)).models_count 5 ∧
    (∀ i, i < 5 → ms[i]? = some none →
      (test_ollama_connection url (TagsResult.ok ms)).models[i]? = some "unknown") := by
  constructor
  · simp [test_ollama_connection, Nat.min_comm]
  · intro i hi hnone
    simp [test_ollama_connection, List.getElem?_map, List.getElem?_take, hi, hnone]

/-- Witness for claim C10 at a concrete inventory whose first entry lacks a
name. -/
theorem claim_C10_unknown_names_witness :
    (test_ollama_connection "http://localhost:11434"
        (TagsResult.ok [none, some "a"])).models.length =
      min (test_ollama_connection "http://localhost:11434"
        (TagsResult.ok [none, some "a"])).models_count 5 ∧
    (test_ollama_connection "http://localhost:11434"
        (TagsResult.ok [none, some "a"])).models[0]? = some "unknown" :=
  ⟨(claim_C10_unknown_names "http://localhost:11434" [none, some "a"]).1,
   (claim_C10_unknown_names "http://localhost:11434" [none, some "a"]).2 0 (by decide) rfl⟩

end OllamaChat
